import Mathlib

/-!
Verification of the storm-blue/gorm-transaction declarative transaction
manager.  The core manager source is not present in the repository
snapshot (only its tests and the repository wrapper are), so the manager
is modelled from the specification: the propagation decision table of
section 4.1 and the finalization matrix of section 4.3, cross-checked
against the behaviors exercised by transaction_test.go.

The model is a shallow embedding of the run-time state (durable rows
plus the pending-write buffer of the ambient physical transaction)
together with a deep embedding of callback programs, so that claims can
quantify over nesting depth and callback shapes.
-/

/-- Modelled from the spec: the closed enumeration of propagation modes
(spec section 3, Data Model).  The seven Go constants of the missing
transaction.go are defined below with their source names. -/
inductive Propagation where
  | required
  | supports
  | mandatory
  | requiresNew
  | notSupported
  | nested
  | never
deriving DecidableEq, Repr

def PropagationRequired : Propagation := .required

def PropagationSupports : Propagation := .supports

def PropagationMandatory : Propagation := .mandatory

def PropagationRequiresNew : Propagation := .requiresNew

def PropagationNotSupported : Propagation := .notSupported

def PropagationNested : Propagation := .nested

def PropagationNever : Propagation := .never

/-- Modelled from the spec: the error values relevant to the manager.
The two sentinel errors of the interface (spec section 6) plus the mock
error the tests use for ordinary callback failures. -/
inductive Err where
  | mock
  | mandatoryWithoutTransaction
  | neverInTransaction
deriving DecidableEq, Repr

/-- The sentinel error the tests compare against for MANDATORY without
an enclosing transaction (Go identifier in transaction_test.go). -/
def ErrMandatoryPropWithoutTransaction : Err := .mandatoryWithoutTransaction

/-- The sentinel error the tests compare against for NEVER inside a
transaction (Go identifier in transaction_test.go). -/
def ErrNeverPropInTransaction : Err := .neverInTransaction

/-- How one frame finishes: a normal Go return carrying an error value
(none models a nil error), or an abrupt unwind (panic). -/
inductive Result where
  | normal (e : Option Err)
  | panicked
deriving DecidableEq, Repr

/-- Durable rows of the database, identified by natural numbers (the
test users).  Autocommitted or committed writes land here. -/
abbrev DB := List Nat

/-- Pending writes of one physical transaction, in execution order.
A savepoint is a snapshot of this buffer; rollback to the savepoint
restores the snapshot. -/
abbrev Buf := List Nat

/-- The full state and result of running one piece of callback code:
durable rows, ambient transaction buffer, and how the code finished. -/
abbrev ExecRes := DB × Option Buf × Result

/-- Deep embedding of callback bodies.  write models tx.Create; done
models return; panic models an abrupt unwind; recover models a callback
whose whole body runs under defer recover (a swallowed panic makes the
callback return nil); tcall models a nested Manager.Transaction call
whose continuation receives the returned error value. -/
inductive Prog where
  | done (e : Option Err)
  | write (u : Nat) (k : Prog)
  | panic
  | recover (body : Prog)
  | tcall (modes : List Propagation) (body : Prog) (k : Option Err → Prog)

/-- Finalization for the NEW and SUSPEND-AND-NEW strategies: after the
callback ran in a fresh transaction, commit the pending buffer on a nil
return, discard it on an error return or a panic, restore the callers
binding (outer), and either continue with the returned error or re-raise
the panic (spec section 4.3, NEW). -/
def finishNew (outer : Option Buf) (x : ExecRes)
    (kk : Option Err → DB → Option Buf → ExecRes) : ExecRes :=
  match x with
  | (db2, some b2, .normal none) => kk none (db2 ++ b2) outer
  | (db2, some _, .normal (some e)) => kk (some e) db2 outer
  | (db2, some _, .panicked) => (db2, outer, .panicked)
  | (db2, none, r) => (db2, outer, r)

/-- Finalization for the JOIN and NONE strategies: no commit and no
rollback at this frame; a normal return continues with the returned
error, a panic is re-raised with no local cleanup (spec section 4.3,
JOIN and NONE). -/
def finishJoin (x : ExecRes)
    (kk : Option Err → DB → Option Buf → ExecRes) : ExecRes :=
  match x with
  | (db2, amb2, .normal e) => kk e db2 amb2
  | (db2, amb2, .panicked) => (db2, amb2, .panicked)

/-- Finalization for the SUSPEND-AND-NONE strategy: the callback ran on
a raw session with the binding hidden; afterwards the outer binding is
restored unchanged, and a panic is re-raised (spec section 4.3). -/
def finishSuspendNone (b : Buf) (x : ExecRes)
    (kk : Option Err → DB → Option Buf → ExecRes) : ExecRes :=
  match x with
  | (db2, _, .normal e) => kk e db2 (some b)
  | (db2, _, .panicked) => (db2, some b, .panicked)

/-- Finalization for the SAVEPOINT strategy: b is the buffer snapshot
taken when the savepoint was opened, before the callback ran.  A nil
return releases the savepoint keeping the callback writes; an error
return or a panic rolls back to the snapshot (spec section 4.3,
SAVEPOINT). -/
def finishSavepoint (b : Buf) (x : ExecRes)
    (kk : Option Err → DB → Option Buf → ExecRes) : ExecRes :=
  match x with
  | (db2, some b2, .normal none) => kk none db2 (some b2)
  | (db2, some _, .normal (some e)) => kk (some e) db2 (some b)
  | (db2, some _, .panicked) => (db2, some b, .panicked)
  | (db2, none, r) => (db2, some b, r)

/-- Modelled from the spec: the Unit-of-Work Runner together with the
Propagation Dispatcher.  State is the durable database plus the ambient
physical transaction (none = no session bound in the context, writes
autocommit; some b = a transaction with pending writes b is bound).
The tcall case implements the decision table of spec section 4.1 (the
dispatcher uses the first supplied mode and defaults to REQUIRED) and
the finalization matrix of spec section 4.3. -/
def execProg : Prog → DB → Option Buf → ExecRes
  | .done e, db, amb => (db, amb, .normal e)
  | .write u k, db, none => execProg k (db ++ [u]) none
  | .write u k, db, some b => execProg k db (some (b ++ [u]))
  | .panic, db, amb => (db, amb, .panicked)
  | .recover body, db, amb =>
      match execProg body db amb with
      | (db2, amb2, .panicked) => (db2, amb2, .normal none)
      | (db2, amb2, .normal e) => (db2, amb2, .normal e)
  | .tcall modes body k, db, amb =>
      match modes.headD PropagationRequired, amb with
      | .required, none =>
          finishNew none (execProg body db (some []))
            (fun e d a => execProg (k e) d a)
      | .required, some b =>
          finishJoin (execProg body db (some b))
            (fun e d a => execProg (k e) d a)
      | .supports, none =>
          finishJoin (execProg body db none)
            (fun e d a => execProg (k e) d a)
      | .supports, some b =>
          finishJoin (execProg body db (some b))
            (fun e d a => execProg (k e) d a)
      | .mandatory, none =>
          execProg (k (some .mandatoryWithoutTransaction)) db none
      | .mandatory, some b =>
          finishJoin (execProg body db (some b))
            (fun e d a => execProg (k e) d a)
      | .requiresNew, none =>
          finishNew none (execProg body db (some []))
            (fun e d a => execProg (k e) d a)
      | .requiresNew, some b =>
          finishNew (some b) (execProg body db (some []))
            (fun e d a => execProg (k e) d a)
      | .notSupported, none =>
          finishJoin (execProg body db none)
            (fun e d a => execProg (k e) d a)
      | .notSupported, some b =>
          finishSuspendNone b (execProg body db none)
            (fun e d a => execProg (k e) d a)
      | .nested, none =>
          finishNew none (execProg body db (some []))
            (fun e d a => execProg (k e) d a)
      | .nested, some b =>
          finishSavepoint b (execProg body db (some b))
            (fun e d a => execProg (k e) d a)
      | .never, none =>
          finishJoin (execProg body db none)
            (fun e d a => execProg (k e) d a)
      | .never, some b =>
          execProg (k (some .neverInTransaction)) db (some b)

section StepLemmas

variable (body : Prog) (k : Option Err → Prog) (db : DB) (b : Buf)
variable (amb : Option Buf)

lemma execProg_done (e : Option Err) :
    execProg (.done e) db amb = (db, amb, .normal e) := rfl

lemma execProg_write_none (u : Nat) (p : Prog) :
    execProg (.write u p) db none = execProg p (db ++ [u]) none := rfl

lemma execProg_write_some (u : Nat) (p : Prog) :
    execProg (.write u p) db (some b) = execProg p db (some (b ++ [u])) := rfl

lemma execProg_panic :
    execProg .panic db amb = (db, amb, .panicked) := rfl

lemma execProg_recover (p : Prog) :
    execProg (.recover p) db amb
      = match execProg p db amb with
        | (db2, amb2, .panicked) => (db2, amb2, .normal none)
        | (db2, amb2, .normal e) => (db2, amb2, .normal e) := rfl

lemma tcall_required_none (ms : List Propagation)
    (hm : ms.headD PropagationRequired = .required) :
    execProg (.tcall ms body k) db none
      = finishNew none (execProg body db (some []))
          (fun e d a => execProg (k e) d a) := by
  cases ms with
  | nil => rfl
  | cons m rest => simp only [List.headD_cons] at hm; subst hm; rfl

lemma tcall_required_some (ms : List Propagation)
    (hm : ms.headD PropagationRequired = .required) :
    execProg (.tcall ms body k) db (some b)
      = finishJoin (execProg body db (some b))
          (fun e d a => execProg (k e) d a) := by
  cases ms with
  | nil => rfl
  | cons m rest => simp only [List.headD_cons] at hm; subst hm; rfl

lemma tcall_supports_none (ms : List Propagation)
    (hm : ms.headD PropagationRequired = .supports) :
    execProg (.tcall ms body k) db none
      = finishJoin (execProg body db none)
          (fun e d a => execProg (k e) d a) := by
  cases ms with
  | nil => simp [List.headD, PropagationRequired] at hm
  | cons m rest => simp only [List.headD_cons] at hm; subst hm; rfl

lemma tcall_supports_some (ms : List Propagation)
    (hm : ms.headD PropagationRequired = .supports) :
    execProg (.tcall ms body k) db (some b)
      = finishJoin (execProg body db (some b))
          (fun e d a => execProg (k e) d a) := by
  cases ms with
  | nil => simp [List.headD, PropagationRequired] at hm
  | cons m rest => simp only [List.headD_cons] at hm; subst hm; rfl

lemma tcall_mandatory_none (ms : List Propagation)
    (hm : ms.headD PropagationRequired = .mandatory) :
    execProg (.tcall ms body k) db none
      = execProg (k (some .mandatoryWithoutTransaction)) db none := by
  cases ms with
  | nil => simp [List.headD, PropagationRequired] at hm
  | cons m rest => simp only [List.headD_cons] at hm; subst hm; rfl

lemma tcall_mandatory_some (ms : List Propagation)
    (hm : ms.headD PropagationRequired = .mandatory) :
    execProg (.tcall ms body k) db (some b)
      = finishJoin (execProg body db (some b))
          (fun e d a => execProg (k e) d a) := by
  cases ms with
  | nil => simp [List.headD, PropagationRequired] at hm
  | cons m rest => simp only [List.headD_cons] at hm; subst hm; rfl

lemma tcall_requiresNew_none (ms : List Propagation)
    (hm : ms.headD PropagationRequired = .requiresNew) :
    execProg (.tcall ms body k) db none
      = finishNew none (execProg body db (some []))
          (fun e d a => execProg (k e) d a) := by
  cases ms with
  | nil => simp [List.headD, PropagationRequired] at hm
  | cons m rest => simp only [List.headD_cons] at hm; subst hm; rfl

lemma tcall_requiresNew_some (ms : List Propagation)
    (hm : ms.headD PropagationRequired = .requiresNew) :
    execProg (.tcall ms body k) db (some b)
      = finishNew (some b) (execProg body db (some []))
          (fun e d a => execProg (k e) d a) := by
  cases ms with
  | nil => simp [List.headD, PropagationRequired] at hm
  | cons m rest => simp only [List.headD_cons] at hm; subst hm; rfl

lemma tcall_notSupported_none (ms : List Propagation)
    (hm : ms.headD PropagationRequired = .notSupported) :
    execProg (.tcall ms body k) db none
      = finishJoin (execProg body db none)
          (fun e d a => execProg (k e) d a) := by
  cases ms with
  | nil => simp [List.headD, PropagationRequired] at hm
  | cons m rest => simp only [List.headD_cons] at hm; subst hm; rfl

lemma tcall_notSupported_some (ms : List Propagation)
    (hm : ms.headD PropagationRequired = .notSupported) :
    execProg (.tcall ms body k) db (some b)
      = finishSuspendNone b (execProg body db none)
          (fun e d a => execProg (k e) d a) := by
  cases ms with
  | nil => simp [List.headD, PropagationRequired] at hm
  | cons m rest => simp only [List.headD_cons] at hm; subst hm; rfl

lemma tcall_nested_none (ms : List Propagation)
    (hm : ms.headD PropagationRequired = .nested) :
    execProg (.tcall ms body k) db none
      = finishNew none (execProg body db (some []))
          (fun e d a => execProg (k e) d a) := by
  cases ms with
  | nil => simp [List.headD, PropagationRequired] at hm
  | cons m rest => simp only [List.headD_cons] at hm; subst hm; rfl

lemma tcall_nested_some (ms : List Propagation)
    (hm : ms.headD PropagationRequired = .nested) :
    execProg (.tcall ms body k) db (some b)
      = finishSavepoint b (execProg body db (some b))
          (fun e d a => execProg (k e) d a) := by
  cases ms with
  | nil => simp [List.headD, PropagationRequired] at hm
  | cons m rest => simp only [List.headD_cons] at hm; subst hm; rfl

lemma tcall_never_none (ms : List Propagation)
    (hm : ms.headD PropagationRequired = .never) :
    execProg (.tcall ms body k) db none
      = finishJoin (execProg body db none)
          (fun e d a => execProg (k e) d a) := by
  cases ms with
  | nil => simp [List.headD, PropagationRequired] at hm
  | cons m rest => simp only [List.headD_cons] at hm; subst hm; rfl

lemma tcall_never_some (ms : List Propagation)
    (hm : ms.headD PropagationRequired = .never) :
    execProg (.tcall ms body k) db (some b)
      = execProg (k (some .neverInTransaction)) db (some b) := by
  cases ms with
  | nil => simp [List.headD, PropagationRequired] at hm
  | cons m rest => simp only [List.headD_cons] at hm; subst hm; rfl

lemma tcall_mode_congr (ms1 ms2 : List Propagation)
    (h : ms1.headD PropagationRequired = ms2.headD PropagationRequired) :
    execProg (.tcall ms1 body k) db amb = execProg (.tcall ms2 body k) db amb := by
  cases ms1 with
  | nil =>
    cases ms2 with
    | nil => rfl
    | cons m2 r2 =>
      simp only [List.headD_nil, List.headD_cons, PropagationRequired] at h
      subst h
      cases amb <;> rfl
  | cons m1 r1 =>
    cases ms2 with
    | nil =>
      simp only [List.headD_nil, List.headD_cons, PropagationRequired] at h
      subst h
      cases amb <;> rfl
    | cons m2 r2 =>
      simp only [List.headD_cons] at h
      subst h
      cases m1 <;> cases amb <;> rfl

end StepLemmas

example :
    execProg (.tcall [PropagationRequired]
      (.write 1 (.done none)) Prog.done) [] none = ([1], none, .normal none) := by
  rfl

example :
    execProg (.tcall [PropagationRequired]
      (.write 1 (.done (some .mock))) Prog.done) [] none
      = ([], none, .normal (some .mock)) := by
  rfl

/-- A chain of REQUIRED frames: each level writes one row and opens the
next level as a nested Transaction call whose returned error value is
propagated upward unchanged (the continuation is Prog.done). -/
def chainProg : List Nat → Prog → Prog
  | [], leaf => leaf
  | w :: ws, leaf =>
      .write w (.tcall [PropagationRequired] (chainProg ws leaf) Prog.done)

/-- Running a propagating REQUIRED chain inside an ambient transaction
appends the chain writes to the pending buffer and forwards the result
of the innermost body unchanged. -/
lemma chainProg_exec (p : Prog) (L : List Nat) (r : Result)
    (hp : ∀ db b, execProg p db (some b) = (db, some (b ++ L), r)) :
    ∀ ws db b,
      execProg (chainProg ws p) db (some b) = (db, some (b ++ (ws ++ L)), r) := by
  intro ws
  induction ws with
  | nil => intro db b; simpa using hp db b
  | cons w ws ih =>
    intro db b
    rw [chainProg, execProg_write_some,
      tcall_required_some _ _ _ _ [PropagationRequired] rfl, ih]
    cases r with
    | normal e => simp [finishJoin, execProg_done]
    | panicked => simp [finishJoin]

/-- C1: for a REQUIRED frame nested (to any depth) inside another
REQUIRED frame, if the innermost callback returns a non-nil error and
every intervening frame propagates it, then after the top-level
Transaction call no writes from any frame are visible (the durable
database is unchanged) and the error surfaces at the top.  The program
is a top-level REQUIRED call around a propagating REQUIRED chain of
length ws.length whose innermost callback writes wz and returns the
mock error; ws nonempty makes the innermost frame properly nested. -/
theorem c1_required_in_required_error_rolls_back_all
    (ws : List Nat) (wz : Nat) (db : DB) (_hne : ws ≠ []) :
    execProg (.tcall [PropagationRequired]
      (chainProg ws (.write wz (.done (some .mock)))) Prog.done) db none
      = (db, none, .normal (some .mock)) := by
  have hleaf : ∀ db b, execProg (.write wz (.done (some Err.mock))) db (some b)
      = (db, some (b ++ [wz]), .normal (some .mock)) := by
    intro db b; rfl
  rw [tcall_required_none _ _ _ [PropagationRequired] rfl,
    chainProg_exec _ [wz] _ hleaf]
  simp [finishNew, execProg_done]

/-- Witness for C1 at depth two with concrete rows. -/
theorem c1_witness : (([1] : List Nat) ≠ []) ∧
    execProg (.tcall [PropagationRequired]
      (chainProg [1] (.write 2 (.done (some .mock)))) Prog.done) [] none
      = ([], none, .normal (some .mock)) :=
  ⟨by decide, c1_required_in_required_error_rolls_back_all [1] 2 [] (by decide)⟩

/-- C2: for REQUIRED nested inside REQUIRED, when an intervening frame
discards the error coming back from an erroring inner subtree and
returns nil, no rollback happens: every write of every reached frame,
including the write wz of the very frame that returned the error, is
durable after the top-level call, which returns nil.  The chain pre
holds the propagating frames above the discarding frame, w is the
discarding frame write, post the propagating frames below it. -/
theorem c2_discarded_error_commits_all_writes
    (pre : List Nat) (w wz : Nat) (post : List Nat) (db : DB) :
    execProg (.tcall [PropagationRequired]
      (chainProg pre
        (.write w (.tcall [PropagationRequired]
          (chainProg post (.write wz (.done (some .mock))))
          (fun _e => .done none))))
      Prog.done) db none
    = (db ++ (pre ++ w :: (post ++ [wz])), none, .normal none) := by
  have hleaf : ∀ db b, execProg (.write wz (.done (some Err.mock))) db (some b)
      = (db, some (b ++ [wz]), .normal (some .mock)) := by
    intro db b; rfl
  have hmid : ∀ db b,
      execProg (.write w (.tcall [PropagationRequired]
        (chainProg post (.write wz (.done (some Err.mock))))
        (fun _e => Prog.done none))) db (some b)
      = (db, some (b ++ (w :: (post ++ [wz]))), .normal none) := by
    intro db b
    rw [execProg_write_some,
      tcall_required_some _ _ _ _ [PropagationRequired] rfl,
      chainProg_exec _ [wz] _ hleaf]
    simp [finishJoin, execProg_done]
  rw [tcall_required_none _ _ _ [PropagationRequired] rfl,
    chainProg_exec _ (w :: (post ++ [wz])) _ hmid]
  simp [finishNew, execProg_done]

/-- C6: MANDATORY with no session bound in the context returns the
sentinel error for a missing transaction without invoking the callback:
for every callback body the durable database is unchanged and the
sentinel surfaces, so no write the callback would have made happens. -/
theorem c6_mandatory_without_transaction_fails_without_callback
    (body : Prog) (db : DB) :
    execProg (.tcall [PropagationMandatory] body Prog.done) db none
      = (db, none, .normal (some ErrMandatoryPropWithoutTransaction)) := rfl

/-- C7: NEVER invoked while a session is bound returns the sentinel
error without invoking the callback (first conjunct: any body, database
and pending buffer unchanged), and when an enclosing default REQUIRED
frame propagates that error the physical transaction rolls back, so
neither the outer write w1 nor the write w2 the NEVER callback would
have made is visible (second conjunct). -/
theorem c7_never_in_transaction_fails_and_rolls_back_outer
    (body : Prog) (db : DB) (b : Buf) (w1 w2 : Nat) :
    execProg (.tcall [PropagationNever] body Prog.done) db (some b)
      = (db, some b, .normal (some ErrNeverPropInTransaction))
    ∧ execProg (.tcall []
        (.write w1 (.tcall [PropagationNever]
          (.write w2 (.done none)) Prog.done))
        Prog.done) db none
      = (db, none, .normal (some ErrNeverPropInTransaction)) :=
  ⟨rfl, rfl⟩

/-- C8: NOT_SUPPORTED inside an active transaction hides the binding
and runs the callback on a raw autocommit session; its write w2 is
durable even though the outer transaction (holding w1) later rolls
back with the mock error. -/
theorem c8_not_supported_writes_survive_outer_rollback
    (db : DB) (w1 w2 : Nat) :
    execProg (.tcall [PropagationRequired]
      (.write w1 (.tcall [PropagationNotSupported]
        (.write w2 (.done none))
        (fun _e => .done (some .mock))))
      Prog.done) db none
    = (db ++ [w2], none, .normal (some .mock)) := rfl

/-- C9: supplying no propagation mode behaves exactly as supplying
REQUIRED (first conjunct, any body, continuation and state); supplying
several modes uses only the first (second conjunct); and with no
ambient session the defaulted call begins a new transaction that
commits on a nil return and rolls back on an error return (third and
fourth conjuncts). -/
theorem c9_default_mode_is_required_and_extra_modes_ignored
    (db : DB) (amb : Option Buf) (body : Prog) (k : Option Err → Prog)
    (m : Propagation) (rest : List Propagation) (w : Nat) (e : Err) :
    execProg (.tcall [] body k) db amb
        = execProg (.tcall [PropagationRequired] body k) db amb
    ∧ execProg (.tcall (m :: rest) body k) db amb
        = execProg (.tcall [m] body k) db amb
    ∧ execProg (.tcall [] (.write w (.done none)) Prog.done) db none
        = (db ++ [w], none, .normal none)
    ∧ execProg (.tcall [] (.write w (.done (some e))) Prog.done) db none
        = (db, none, .normal (some e)) :=
  ⟨tcall_mode_congr body k db amb [] [PropagationRequired] (by simp [PropagationRequired]),
   tcall_mode_congr body k db amb (m :: rest) [m] (by simp),
   rfl, rfl⟩

/-- C10: a panic in a joined REQUIRED frame that is recovered by an
enclosing callback which then returns nil does not cause any rollback:
the physical transaction commits and every write made before the panic,
including the write of the panicking frame itself, is visible.  First
conjunct: recovery in the outermost callback (writes u1 u2 u3, the
frame writing u3 panics).  Second conjunct: recovery in an intermediate
joined frame neutralizes the unwind for all frames above it (writes u1
u2 u3 u4, the frame writing u4 panics). -/
theorem c10_recovered_panic_commits_all_prior_writes
    (db : DB) (u1 u2 u3 u4 : Nat) :
    execProg (.tcall [PropagationRequired]
      (.recover (.write u1
        (.tcall [PropagationRequired] (.write u2 (.done none))
          (fun e => match e with
            | some e1 => .done (some e1)
            | none =>
                .tcall [PropagationRequired] (.write u3 .panic)
                  (fun _e => .done none)))))
      Prog.done) db none
    = (db ++ [u1, u2, u3], none, .normal none)
    ∧ execProg (.tcall [PropagationRequired]
        (.write u1
          (.tcall [PropagationRequired] (.write u2 (.done none))
            (fun e => match e with
              | some e1 => .done (some e1)
              | none =>
                  .tcall [PropagationRequired]
                    (.recover (.write u3
                      (.tcall [PropagationRequired] (.write u4 .panic)
                        (fun _e => .done none))))
                    (fun e2 => match e2 with
                      | some e3 => .done (some e3)
                      | none => .done none))))
        Prog.done) db none
      = (db ++ [u1, u2, u3, u4], none, .normal none) :=
  ⟨rfl, rfl⟩

/-- How a modelled callback finishes after its writes: return nil,
return the mock error, or unwind abruptly. -/
inductive CbEnd where
  | ok
  | fail
  | unwind
deriving DecidableEq, Repr

/-- The program fragment ending a callback body per CbEnd. -/
def endProg : CbEnd → Prog
  | .ok => .done none
  | .fail => .done (some .mock)
  | .unwind => .panic

/-- The REQUIRES_NEW scenario of the tests: a top-level REQUIRED frame
writes wOut, then invokes a REQUIRES_NEW frame that writes wIn and
finishes per cIn; the outer callback discards the inner result and
finishes per cOut. -/
def reqNewDemo (wOut wIn : Nat) (cIn cOut : CbEnd) : Prog :=
  .tcall [PropagationRequired]
    (.write wOut (.tcall [PropagationRequiresNew]
      (.write wIn (endProg cIn))
      (fun _e => endProg cOut)))
    Prog.done

/-- Full evaluation of the REQUIRES_NEW scenario on every combination
of inner and outer endings. -/
lemma reqNewDemo_exec (db : DB) (wOut wIn : Nat) (cIn cOut : CbEnd) :
    execProg (reqNewDemo wOut wIn cIn cOut) db none
      = (match cIn, cOut with
         | .ok, .ok => (db ++ [wIn]) ++ [wOut]
         | .ok, _ => db ++ [wIn]
         | .fail, .ok => db ++ [wOut]
         | .fail, _ => db
         | .unwind, _ => db,
         none,
         match cIn, cOut with
         | .unwind, _ => .panicked
         | _, .ok => .normal none
         | _, .fail => .normal (some .mock)
         | _, .unwind => .panicked) := by
  cases cIn <;> cases cOut <;> rfl

/-- C3: for a REQUIRES_NEW frame invoked while an outer transaction is
active, the inner write persists if and only if the inner callback
returns nil and does not unwind, whatever the outer ending is; and when
the inner callback completes (does not unwind), the outer write
persists if and only if the outer callback returns nil, whatever the
inner result was (the outer discards it). -/
theorem c3_requires_new_outcomes_independent
    (db : DB) (wIn wOut : Nat) (cIn cOut : CbEnd)
    (h1 : wIn ∉ db) (h2 : wOut ∉ db) (h3 : wIn ≠ wOut) :
    (wIn ∈ (execProg (reqNewDemo wOut wIn cIn cOut) db none).1 ↔ cIn = .ok)
    ∧ (cIn ≠ .unwind →
        (wOut ∈ (execProg (reqNewDemo wOut wIn cIn cOut) db none).1 ↔ cOut = .ok)) := by
  rw [reqNewDemo_exec]
  cases cIn <;> cases cOut <;> simp [h1, h2, h3, Ne.symm h3]

/-- Witness for C3 with both callbacks returning nil on concrete rows. -/
theorem c3_witness :
    (1 ∉ ([] : DB)) ∧ (2 ∉ ([] : DB)) ∧ (1 ≠ 2) ∧
    ((1 ∈ (execProg (reqNewDemo 2 1 .ok .ok) [] none).1 ↔ CbEnd.ok = CbEnd.ok)
     ∧ (CbEnd.ok ≠ CbEnd.unwind →
         (2 ∈ (execProg (reqNewDemo 2 1 .ok .ok) [] none).1 ↔ CbEnd.ok = CbEnd.ok))) :=
  ⟨by decide, by decide, by decide,
   c3_requires_new_outcomes_independent [] 1 2 .ok .ok
     (by decide) (by decide) (by decide)⟩

/-- C4: for a NESTED frame inside an active transaction the model opens
a savepoint (snapshots the pending buffer) before the callback runs.
If the inner callback returns the mock error, exactly the post-savepoint
work w2 is undone while the pre-savepoint outer write w1 survives
provided the outer returns nil; if the outer itself returns an error,
the whole transaction rolls back and both w1 and w2 are undone.  The
iOk and oOk flags select nil versus the mock error for the inner and
outer returns, and the equation characterizes all four combinations. -/
theorem c4_nested_savepoint_partial_rollback
    (db : DB) (w1 w2 : Nat) (iOk oOk : Bool) :
    execProg (.tcall []
      (.write w1 (.tcall [PropagationNested]
        (.write w2 (.done (if iOk then none else some .mock)))
        (fun _e => .done (if oOk then none else some .mock))))
      Prog.done) db none
    = (if oOk then db ++ (w1 :: (if iOk then [w2] else [])) else db,
       none, .normal (if oOk then none else some .mock)) := by
  cases iOk <;> cases oOk <;> rfl

/-- Straight-line writes before the end of a callback body. -/
def writesP : List Nat → Prog → Prog
  | [], p => p
  | w :: ws, p => .write w (writesP ws p)

lemma writesP_exec_none (ws : List Nat) (p : Prog) :
    ∀ db : DB, execProg (writesP ws p) db none = execProg p (db ++ ws) none := by
  induction ws with
  | nil => intro db; simp [writesP]
  | cons w ws ih =>
    intro db
    rw [writesP, execProg_write_none, ih]
    simp

lemma writesP_exec_some (ws : List Nat) (p : Prog) :
    ∀ (db : DB) (b : Buf),
      execProg (writesP ws p) db (some b) = execProg p db (some (b ++ ws)) := by
  induction ws with
  | nil => intro db b; simp [writesP]
  | cons w ws ih =>
    intro db b
    rw [writesP, execProg_write_some, ih]
    simp

/-- A nesting context of Transaction frames: each frame writes one row
and then opens a nested Transaction call with an arbitrary mode list,
propagating the returned error value upward unchanged. -/
inductive Ctx where
  | hole
  | frame (modes : List Propagation) (w : Nat) (c : Ctx)

/-- Plugging a callback body into the innermost frame of a context. -/
def plugCtx : Ctx → Prog → Prog
  | .hole, p => p
  | .frame ms w c, p => .write w (.tcall ms (plugCtx c p) Prog.done)

/-- Two executions agree on durability: same durable rows, same pending
buffer, and either identical results or the left one panicked where the
right one returned the mock error. -/
def simExec : ExecRes → ExecRes → Prop
  | (d1, a1, r1), (d2, a2, r2) =>
      d1 = d2 ∧ a1 = a2 ∧ (r1 = r2 ∨ (r1 = .panicked ∧ r2 = .normal (some Err.mock)))

lemma simExec_rfl (x : ExecRes) : simExec x x := by
  obtain ⟨d, a, r⟩ := x
  simp [simExec]

lemma finishNew_sim (outer : Option Buf) (x y : ExecRes) (h : simExec x y) :
    simExec (finishNew outer x (fun e d a => execProg (Prog.done e) d a))
            (finishNew outer y (fun e d a => execProg (Prog.done e) d a)) := by
  obtain ⟨d1, a1, r1⟩ := x
  obtain ⟨d2, a2, r2⟩ := y
  obtain ⟨h1, h2, h3⟩ := h
  subst h1; subst h2
  rcases h3 with h3 | ⟨hp, hq⟩
  · subst h3; exact simExec_rfl _
  · subst hp; subst hq
    cases a1 <;> simp [finishNew, simExec, execProg_done]

lemma finishJoin_sim (x y : ExecRes) (h : simExec x y) :
    simExec (finishJoin x (fun e d a => execProg (Prog.done e) d a))
            (finishJoin y (fun e d a => execProg (Prog.done e) d a)) := by
  obtain ⟨d1, a1, r1⟩ := x
  obtain ⟨d2, a2, r2⟩ := y
  obtain ⟨h1, h2, h3⟩ := h
  subst h1; subst h2
  rcases h3 with h3 | ⟨hp, hq⟩
  · subst h3; exact simExec_rfl _
  · subst hp; subst hq
    simp [finishJoin, simExec, execProg_done]

lemma finishSuspendNone_sim (b : Buf) (x y : ExecRes) (h : simExec x y) :
    simExec (finishSuspendNone b x (fun e d a => execProg (Prog.done e) d a))
            (finishSuspendNone b y (fun e d a => execProg (Prog.done e) d a)) := by
  obtain ⟨d1, a1, r1⟩ := x
  obtain ⟨d2, a2, r2⟩ := y
  obtain ⟨h1, h2, h3⟩ := h
  subst h1; subst h2
  rcases h3 with h3 | ⟨hp, hq⟩
  · subst h3; exact simExec_rfl _
  · subst hp; subst hq
    simp [finishSuspendNone, simExec, execProg_done]

lemma finishSavepoint_sim (b : Buf) (x y : ExecRes) (h : simExec x y) :
    simExec (finishSavepoint b x (fun e d a => execProg (Prog.done e) d a))
            (finishSavepoint b y (fun e d a => execProg (Prog.done e) d a)) := by
  obtain ⟨d1, a1, r1⟩ := x
  obtain ⟨d2, a2, r2⟩ := y
  obtain ⟨h1, h2, h3⟩ := h
  subst h1; subst h2
  rcases h3 with h3 | ⟨hp, hq⟩
  · subst h3; exact simExec_rfl _
  · subst hp; subst hq
    cases a1 <;> simp [finishSavepoint, simExec, execProg_done]

/-- C5: at every nesting depth (any context of frames, each with any
propagation mode list) and from every starting state, a callback that
writes ws and then unwinds abruptly produces exactly the same durable
rows and the same pending buffer as the same callback returning the
mock error instead; the only difference is the surfaced outcome, where
the unwind is re-raised as a panic rather than converted to an error
value (or, when a FAIL dispatch stops both runs before the callback,
the two outcomes are identical). -/
theorem c5_panic_matches_error_for_durability
    (C : Ctx) (ws : List Nat) (db : DB) (amb : Option Buf) :
    simExec (execProg (plugCtx C (writesP ws .panic)) db amb)
            (execProg (plugCtx C (writesP ws (.done (some .mock)))) db amb) := by
  induction C generalizing db amb with
  | hole =>
    cases amb with
    | none =>
      rw [plugCtx, plugCtx, writesP_exec_none, writesP_exec_none,
        execProg_panic, execProg_done]
      simp [simExec]
    | some b =>
      rw [plugCtx, plugCtx, writesP_exec_some, writesP_exec_some,
        execProg_panic, execProg_done]
      simp [simExec]
  | frame ms w c ih =>
    cases amb with
    | none =>
      rw [plugCtx, plugCtx, execProg_write_none, execProg_write_none]
      cases hm : ms.headD PropagationRequired with
      | required =>
        rw [tcall_required_none _ _ _ ms hm, tcall_required_none _ _ _ ms hm]
        exact finishNew_sim none _ _ (ih (db ++ [w]) (some []))
      | supports =>
        rw [tcall_supports_none _ _ _ ms hm, tcall_supports_none _ _ _ ms hm]
        exact finishJoin_sim _ _ (ih (db ++ [w]) none)
      | mandatory =>
        rw [tcall_mandatory_none _ _ _ ms hm, tcall_mandatory_none _ _ _ ms hm]
        exact simExec_rfl _
      | requiresNew =>
        rw [tcall_requiresNew_none _ _ _ ms hm, tcall_requiresNew_none _ _ _ ms hm]
        exact finishNew_sim none _ _ (ih (db ++ [w]) (some []))
      | notSupported =>
        rw [tcall_notSupported_none _ _ _ ms hm, tcall_notSupported_none _ _ _ ms hm]
        exact finishJoin_sim _ _ (ih (db ++ [w]) none)
      | nested =>
        rw [tcall_nested_none _ _ _ ms hm, tcall_nested_none _ _ _ ms hm]
        exact finishNew_sim none _ _ (ih (db ++ [w]) (some []))
      | never =>
        rw [tcall_never_none _ _ _ ms hm, tcall_never_none _ _ _ ms hm]
        exact finishJoin_sim _ _ (ih (db ++ [w]) none)
    | some b =>
      rw [plugCtx, plugCtx, execProg_write_some, execProg_write_some]
      cases hm : ms.headD PropagationRequired with
      | required =>
        rw [tcall_required_some _ _ _ _ ms hm, tcall_required_some _ _ _ _ ms hm]
        exact finishJoin_sim _ _ (ih db (some (b ++ [w])))
      | supports =>
        rw [tcall_supports_some _ _ _ _ ms hm, tcall_supports_some _ _ _ _ ms hm]
        exact finishJoin_sim _ _ (ih db (some (b ++ [w])))
      | mandatory =>
        rw [tcall_mandatory_some _ _ _ _ ms hm, tcall_mandatory_some _ _ _ _ ms hm]
        exact finishJoin_sim _ _ (ih db (some (b ++ [w])))
      | requiresNew =>
        rw [tcall_requiresNew_some _ _ _ _ ms hm,
          tcall_requiresNew_some _ _ _ _ ms hm]
        exact finishNew_sim (some (b ++ [w])) _ _ (ih db (some []))
      | notSupported =>
        rw [tcall_notSupported_some _ _ _ _ ms hm,
          tcall_notSupported_some _ _ _ _ ms hm]
        exact finishSuspendNone_sim (b ++ [w]) _ _ (ih db none)
      | nested =>
        rw [tcall_nested_some _ _ _ _ ms hm, tcall_nested_some _ _ _ _ ms hm]
        exact finishSavepoint_sim (b ++ [w]) _ _ (ih db (some (b ++ [w])))
      | never =>
        rw [tcall_never_some _ _ _ _ ms hm, tcall_never_some _ _ _ _ ms hm]
        exact simExec_rfl _
